import Mathlib

/-!
# Verification of the kiddy-ai-backend guardrail pipeline

Shallow embedding of the request-orchestration and guardrail core of the
backend: PII redaction (`app/core/guardrails.py`), the per-day usage budget
(`app/core/guardrails.py`), emotion classification
(`app/services/emotion_service.py`), response composition
(`app/services/gemini_service.py`), the conversation log
(`app/services/memory.py`), audio validation (`app/services/stt_service.py`)
and the chat / export-logs handlers (`app/api/v1/chat.py`).

Strings are modelled as `List Char`; machine floats (sentiment scores,
wall-clock times) are modelled as rationals; the SQLite message table is
modelled as a list of rows; every external collaborator (generation,
sentiment, speech recognition, speech synthesis) is a function parameter so
that its success and failure behaviours can be instantiated explicitly.
-/

namespace Guardrails

/-! ## Character classes used by the PII regexes

Python `\d`, `\w`, `\s` restricted to the ASCII range.  The source compiles
its patterns without `re.ASCII`, so Python's `\d` and `\w` also match
non-ASCII Unicode decimal digits and word characters; this embedding is
therefore exact only for ASCII subject strings, and every
universally-quantified theorem whose truth depends on these classes is
stated over ASCII strings. -/

/-- Python `\d`, restricted to the ASCII digits (without `re.ASCII`, the real
class also matches non-ASCII Unicode decimal digits such as U+0665; exact on
ASCII subject strings). -/
def isDigitChar (c : Char) : Bool := c.isDigit

/-- Python `\w`, restricted to ASCII letters, digits and underscore (the real
class, and hence `\b`, is Unicode-aware; exact on ASCII subject strings). -/
def isWordChar (c : Char) : Bool := c.isAlphanum || c = '_'

/-- Python `\s` (ASCII): space, tab, newline, carriage return, vertical tab,
form feed. -/
def isSpaceChar (c : Char) : Bool :=
  c = ' ' || c = '\t' || c = '\n' || c = '\r' || c = '\x0b' || c = '\x0c'

/-- The character class `[A-Za-z0-9._%+-]` (local part of `_EMAIL_RE`). -/
def isLocalChar (c : Char) : Bool :=
  c.isAlphanum || c = '.' || c = '_' || c = '%' || c = '+' || c = '-'

/-- The character class `[A-Za-z0-9.-]` (domain part of `_EMAIL_RE`). -/
def isDomainChar (c : Char) : Bool := c.isAlphanum || c = '.' || c = '-'

/-- The character class `[A-Za-z]` (top-level-domain part of `_EMAIL_RE`). -/
def isAlphaChar (c : Char) : Bool := c.isAlpha

/-! ## Small matching combinators

Each pattern matcher takes the character immediately before the current
scan position (`prev`, `none` at the start of the string) plus the rest of
the string, and returns the remainder of the string after a successful
match, or `none`.  This mirrors how a Python regex engine consumes the
subject string. -/

/-- Consume exactly `n` characters satisfying `p`. -/
def eatN (p : Char → Bool) : Nat → List Char → Option (List Char)
  | 0, l => some l
  | _ + 1, [] => none
  | n + 1, c :: cs => if p c then eatN p n cs else none

/-- Consume exactly the character `c`. -/
def expectChar (c : Char) : List Char → Option (List Char)
  | [] => none
  | x :: xs => if x = c then some xs else none

/-- `\b` before a word character: the previous character (if any) is not a
word character. -/
def boundaryOk (prev : Option Char) : Bool :=
  match prev with
  | none => true
  | some c => !isWordChar c

/-- `\b` after a word character: the next character (if any) is not a word
character. -/
def noWordAhead (l : List Char) : Bool :=
  match l with
  | [] => true
  | c :: _ => !isWordChar c

/-! ## The four PII patterns of `guardrails.py` -/

/-- `_SSN_RE = \b\d{3}-\d{2}-\d{4}\b`. -/
def ssnMatch (prev : Option Char) (l : List Char) : Option (List Char) :=
  if boundaryOk prev then
    (eatN isDigitChar 3 l).bind fun r1 =>
    (expectChar '-' r1).bind fun r2 =>
    (eatN isDigitChar 2 r2).bind fun r3 =>
    (expectChar '-' r3).bind fun r4 =>
    (eatN isDigitChar 4 r4).bind fun r5 =>
    if noWordAhead r5 then some r5 else none
  else none

/-- First alternative of `_PHONE_RE`: `\b\d{10}\b`. -/
def phoneAlt1 (prev : Option Char) (l : List Char) : Option (List Char) :=
  if boundaryOk prev then
    (eatN isDigitChar 10 l).bind fun r =>
    if noWordAhead r then some r else none
  else none

/-- Tail `\d{3}-\d{4}` of the second `_PHONE_RE` alternative. -/
def phoneAlt2Tail (l : List Char) : Option (List Char) :=
  (eatN isDigitChar 3 l).bind fun r1 =>
  (expectChar '-' r1).bind fun r2 =>
  eatN isDigitChar 4 r2

/-- Second alternative of `_PHONE_RE`: `\(\d{3}\)\s?\d{3}-\d{4}`, with the
greedy optional whitespace tried first, as the backtracking engine does. -/
def phoneAlt2 (l : List Char) : Option (List Char) :=
  (expectChar '(' l).bind fun r1 =>
  (eatN isDigitChar 3 r1).bind fun r2 =>
  (expectChar ')' r2).bind fun r3 =>
  match r3 with
  | c :: cs =>
    if isSpaceChar c then
      match phoneAlt2Tail cs with
      | some r => some r
      | none => phoneAlt2Tail r3
    else phoneAlt2Tail r3
  | [] => none

/-- `_PHONE_RE = \b\d{10}\b|\(\d{3}\)\s?\d{3}-\d{4}`: the engine tries the
first alternative, then the second. -/
def phoneMatch (prev : Option Char) (l : List Char) : Option (List Char) :=
  match phoneAlt1 prev l with
  | some r => some r
  | none => phoneAlt2 l

/-- `_ZIP_RE = \b\d{5}(?:-\d{4})?\b`: the greedy optional `-\d{4}` group is
tried first; if the trailing boundary then fails, the engine backtracks and
drops the group. -/
def zipMatch (prev : Option Char) (l : List Char) : Option (List Char) :=
  if boundaryOk prev then
    (eatN isDigitChar 5 l).bind fun r5 =>
    match ((expectChar '-' r5).bind fun a =>
           (eatN isDigitChar 4 a).bind fun b =>
           if noWordAhead b then some b else none) with
    | some r => some r
    | none => if noWordAhead r5 then some r5 else none
  else none

/-- Domain-and-TLD part of `_EMAIL_RE` after the `@`: the greedy
`[A-Za-z0-9.-]+` is backtracked from `d` characters downwards until
`\.[A-Za-z]{2,4}` (itself greedy, at most 4 and at least 2 letters) matches. -/
def emailDomainTry (after : List Char) : Nat → Option (List Char)
  | 0 => none
  | d + 1 =>
    let rest := after.drop (d + 1)
    match ((expectChar '.' rest).bind fun r =>
           let k := min ((r.takeWhile isAlphaChar).length) 4
           if 2 ≤ k then some (r.drop k) else none) with
    | some r => some r
    | none => emailDomainTry after d

/-- `_EMAIL_RE = [A-Za-z0-9._%+-]+@[A-Za-z0-9.-]+\.[A-Za-z]{2,4}` (no word
boundaries). -/
def emailMatch (_prev : Option Char) (l : List Char) : Option (List Char) :=
  let loc := l.takeWhile isLocalChar
  if loc.isEmpty then none
  else
    (expectChar '@' (l.drop loc.length)).bind fun afterAt =>
    emailDomainTry afterAt ((afterAt.takeWhile isDomainChar).length)

/-! ## `re.Pattern.sub` -/

/-- The fixed replacement, `_TOKEN_PLACEHOLDER = "[redacted]"`. -/
def TOKEN_PLACEHOLDER : List Char := "[redacted]".data

/-- One left-to-right scan of `pat.sub(token, text)`: at each position try the
matcher; on success emit the token and resume after the match (matching always
continues against the original characters, so `prev` becomes the last
character consumed by the match); on failure copy one character.  `fuel`
bounds the recursion and is instantiated with `l.length + 1`, which is enough
because every successful match consumes at least one character. -/
def subAux (m : Option Char → List Char → Option (List Char)) (tok : List Char) :
    Nat → Option Char → List Char → List Char
  | 0, _, l => l
  | _ + 1, _, [] => []
  | fuel + 1, prev, c :: cs =>
    match m prev (c :: cs) with
    | some rest =>
      tok ++ subAux m tok fuel (((c :: cs).take ((c :: cs).length - rest.length)).getLast?) rest
    | none => c :: subAux m tok fuel (some c) cs

/-- `pat.sub(token, text)` for one pattern. -/
def sub1 (m : Option Char → List Char → Option (List Char)) (tok : List Char)
    (l : List Char) : List Char :=
  subAux m tok (l.length + 1) none l

/-- `sanitize` from `app/core/guardrails.py`: apply the four patterns in the
order `_SSN_RE, _PHONE_RE, _ZIP_RE, _EMAIL_RE`, each replacing every match
with `"[redacted]"`. -/
def sanitizeL (l : List Char) : List Char :=
  sub1 emailMatch TOKEN_PLACEHOLDER
    (sub1 zipMatch TOKEN_PLACEHOLDER
      (sub1 phoneMatch TOKEN_PLACEHOLDER
        (sub1 ssnMatch TOKEN_PLACEHOLDER l)))

/-- String-level `sanitize`. -/
def sanitize (s : String) : String := ⟨sanitizeL s.data⟩

/-- Number of positions at which the pattern `p :: ps` starts.  For the
redaction token `"[redacted]"`, whose first character recurs nowhere else in
it, occurrences cannot overlap, so this equals the non-overlapping
occurrence count. -/
def countOccsAux (p : Char) (ps : List Char) : List Char → Nat
  | [] => 0
  | c :: cs =>
    (if (p :: ps).isPrefixOf (c :: cs) then 1 else 0) + countOccsAux p ps cs

/-- Occurrence count of the redaction token in a string. -/
def countRedacted (s : String) : Nat :=
  countOccsAux '[' "redacted]".data s.data

/-! ## The per-day token bucket of `guardrails.py` -/

/-- Count of the matches of `_WORD_RE = \w+` in a string, i.e. the number of
maximal runs of word characters (`len(_WORD_RE.findall(text))`). -/
def wordRunsAux : Bool → List Char → Nat
  | _, [] => 0
  | inWord, c :: cs =>
    if isWordChar c then (if inWord then 0 else 1) + wordRunsAux true cs
    else wordRunsAux false cs

/-- `len(_WORD_RE.findall(text))`. -/
def countTokens (text : String) : Nat := wordRunsAux false text.data

/-- The module-level mutable state of the token bucket: `_bucket` (a dict,
modelled as a total map defaulting to 0, matching `_bucket.get(sid, 0)`) and
`_reset_ts` (a wall-clock time, modelled as a rational). -/
structure BudgetState where
  bucket : String → Nat
  resetTs : ℚ

/-- `_maybe_reset()`: if strictly more than 86 400 seconds have elapsed since
`_reset_ts`, clear the whole bucket and restart the window at the current
time. -/
def maybe_reset (now : ℚ) (st : BudgetState) : BudgetState :=
  if now - st.resetTs > 86400 then { bucket := fun _ => 0, resetTs := now } else st

/-- `within_daily_budget(session_id, text)`, with the configured
`_MAX_TOKENS = settings.max_tokens_per_day` and the current wall-clock time
passed explicitly.  Returns the boolean result together with the updated
module state. -/
def within_daily_budget (maxTokens : Nat) (now : ℚ) (st : BudgetState)
    (session_id text : String) : Bool × BudgetState :=
  let st := maybe_reset now st
  let tokens := countTokens text
  let used := st.bucket session_id
  if used + tokens > maxTokens then
    (false, { st with bucket := Function.update st.bucket session_id 0 })
  else
    (true, { st with bucket := Function.update st.bucket session_id (used + tokens) })

end Guardrails

namespace EmotionService

/-- `_POS_THRESH = 0.25`. -/
def POS_THRESH : ℚ := 1/4

/-- `_NEG_THRESH = -0.25`. -/
def NEG_THRESH : ℚ := -(1/4)

/-- `SENTIMENT_TO_EMOTION` from `app/core/constants.py`. -/
def SENTIMENT_TO_EMOTION (key : String) : String :=
  if key = "positive" then "excited"
  else if key = "neutral" then "friendly"
  else if key = "negative" then "caring"
  else ""

/-- `detect_emotion(text)`: the sentiment collaborator is a function from the
text to either a score or a failure; any failure falls back to the neutral
bucket. -/
def detect_emotion (sentiment : String → Except String ℚ) (text : String) : String :=
  match sentiment text with
  | .ok score =>
    if score ≥ POS_THRESH then SENTIMENT_TO_EMOTION "positive"
    else if score ≤ NEG_THRESH then SENTIMENT_TO_EMOTION "negative"
    else SENTIMENT_TO_EMOTION "neutral"
  | .error _ => SENTIMENT_TO_EMOTION "neutral"

/-- `detect_kid_emotion(text)`. -/
def detect_kid_emotion (sentiment : String → Except String ℚ) (text : String) : String :=
  match sentiment text with
  | .ok score =>
    if score ≥ POS_THRESH then "happy"
    else if score ≤ NEG_THRESH then "sad"
    else "neutral"
  | .error _ => "neutral"

/-- `get_emotional_response_style(kid_emotion)`. -/
def get_emotional_response_style (kid_emotion : String) : String :=
  if kid_emotion = "happy" then "cheerful"
  else if kid_emotion = "sad" then "affectionate"
  else if kid_emotion = "neutral" then "curious"
  else "curious"

end EmotionService

namespace GeminiService

open Guardrails

/-- The keep-set of `_EMOJI_RE = [^\w\s\.,!?;:()\-\'\"\n]` (characters NOT
removed by `_remove_emojis`). -/
def isKeptChar (c : Char) : Bool :=
  isWordChar c || isSpaceChar c ||
    c = '.' || c = ',' || c = '!' || c = '?' || c = ';' || c = ':' ||
    c = '(' || c = ')' || c = '-' || c = '\'' || c = '\"' || c = '\n'

/-- `_remove_emojis(text)`: delete every character outside the keep-set. -/
def remove_emojis (s : String) : String := ⟨s.data.filter isKeptChar⟩

/-- Python `str.strip()` (whitespace on both ends). -/
def pyStripL (l : List Char) : List Char :=
  ((l.dropWhile isSpaceChar).reverse.dropWhile isSpaceChar).reverse

/-- Python `str.strip()` on strings. -/
def pyStrip (s : String) : String := ⟨pyStripL s.data⟩

/-- Is the character part of a `[\r\n]+` separator? -/
def isNL (c : Char) : Bool := c = '\r' || c = '\n'

/-- `dropWhile` never lengthens a list (termination helper). -/
theorem length_dropWhile_le (p : Char → Bool) (l : List Char) :
    (l.dropWhile p).length ≤ l.length := by
  induction l with
  | nil => simp
  | cons c cs ih =>
    by_cases h : p c
    · simpa [List.dropWhile_cons, h] using Nat.le_succ_of_le ih
    · simp [List.dropWhile_cons, h]

/-- `re.split(r"[\r\n]+", s)`: pieces between maximal runs of line breaks
(with empty pieces at the ends when the string starts or ends with a run). -/
def splitLines : List Char → List (List Char)
  | [] => [[]]
  | c :: cs =>
    if isNL c then [] :: splitLines (cs.dropWhile isNL)
    else
      match splitLines cs with
      | p :: ps => (c :: p) :: ps
      | [] => [[c]]
  termination_by l => l.length
  decreasing_by
  all_goals simp only [List.length_cons]
  · exact Nat.lt_succ_of_le (length_dropWhile_le _ _)
  · exact Nat.lt_succ_self _

/-- `_MAX_LINES = 2`. -/
def MAX_LINES : Nat := 2

/-- `_truncate_to_lines(text, max_lines)`: strip, split on line-break runs,
keep the first `max_lines` pieces, re-join with `"\n"`, strip again. -/
def truncate_to_lines_at (max_lines : Nat) (text : String) : String :=
  let lines := splitLines (pyStripL text.data)
  let lines := if lines.length > max_lines then lines.take max_lines else lines
  pyStrip ⟨List.intercalate "\n".data lines⟩

/-- `_truncate_to_lines` at its default `_MAX_LINES`. -/
def truncate_to_lines (text : String) : String := truncate_to_lines_at MAX_LINES text

/-- The budget-denied scripted message in `get_reply`. -/
def BREAK_MESSAGE : String :=
  "We've been chatting a lot! Let's take a break and talk again later!"

/-- The `fallback_responses` list built in `get_reply`'s exception handler
(f-strings with `buddy_name` interpolated). -/
def fallback_responses (buddy_name : String) : List String :=
  ["Hey " ++ buddy_name ++ " here! That's really interesting! Tell me more about that!",
   "Wow, that's cool! I'm " ++ buddy_name ++ " and I'd love to hear more!",
   "That's awesome! What else do you want to talk about?",
   "I'm " ++ buddy_name ++ " and I think that's really neat! Want to tell me more?",
   "That sounds fun! I'm curious to hear more about it!"]

/-- The `emotion_context` clause appended to the system prompt in
`get_reply`, selected by `kid_emotion`. -/
def emotion_context (kid_emotion : String) : String :=
  if kid_emotion = "sad" then
    "\nThe child seems sad. Be extra comforting and warm in your response."
  else if kid_emotion = "happy" then
    "\nThe child seems happy! Match their positive energy and be excited!"
  else if kid_emotion = "neutral" then
    "\nThe child seems neutral. Be engaging and curious to draw them in."
  else ""

/-- Trace of one `get_reply` call: the returned reply, the updated budget
state, and the texts each stage operated on.  `chargedText` is the argument
passed to `within_daily_budget`; `sanitizedText` is `clean_text = sanitize(user_text)`
when it was computed (the budget-denied early return never reaches it);
`promptText` is the single `user` message handed to the generation
collaborator. -/
structure GetReplyResult where
  reply : String
  st : Guardrails.BudgetState
  chargedText : String
  sanitizedText : Option String
  promptText : Option String

/-- `get_reply(session_id, user_text, buddy_name, kid_age, kid_emotion)`.

`sysPrompt` stands for `SYSTEM_PROMPT.format(custom_name=buddy_name,
kid_age=kid_age)` (the long constant template from `app/core/constants.py`,
whose literal text plays no role in any claim); `gen` is the generation
collaborator (`gemini_model.generate_content` followed by reading `.text`),
and `pick` chooses the index used by `random.choice` on the 5-element
fallback list. -/
def get_reply (maxTokens : Nat) (now : ℚ) (st : Guardrails.BudgetState)
    (session_id user_text buddy_name : String) (kid_emotion : String)
    (sysPrompt : String) (gen : String → Except String String) (pick : Nat) :
    GetReplyResult :=
  let (allowed, st') := within_daily_budget maxTokens now st session_id user_text
  if !allowed then
    { reply := BREAK_MESSAGE, st := st', chargedText := user_text,
      sanitizedText := none, promptText := none }
  else
    let clean_text := sanitize user_text
    let user_message := sysPrompt ++ emotion_context kid_emotion ++ "\n\nUser: " ++ clean_text
    match gen user_message with
    | .ok raw_text =>
      { reply := truncate_to_lines (remove_emojis raw_text), st := st',
        chargedText := user_text, sanitizedText := some clean_text,
        promptText := some user_message }
    | .error _ =>
      { reply := (fallback_responses buddy_name).getD (pick % 5) "", st := st',
        chargedText := user_text, sanitizedText := some clean_text,
        promptText := some user_message }

end GeminiService

namespace Memory

/-- One row of the `messages` table (`session_id`, `created_at`, `text`).
Timestamps are `int(time.time())` values, modelled as integers. -/
structure Record where
  session_id : String
  created_at : Int
  text : String
  deriving DecidableEq, Repr

/-- `_RETENTION_SECS = settings.log_retention_days * 86_400`. -/
def RETENTION_SECS (retention_days : Nat) : Int := (retention_days : Int) * 86400

/-- `_purge_old(conn)`: `DELETE FROM messages WHERE created_at < cutoff` with
`cutoff = int(time.time()) - _RETENTION_SECS`.  The SQL has no `session_id`
filter, so the sweep is global. -/
def purge_old (retention_days : Nat) (now : Int) (db : List Record) : List Record :=
  let cutoff := now - RETENTION_SECS retention_days
  db.filter (fun r => !(r.created_at < cutoff))

/-- `insert(session_id, text)`: append the new row, then purge. -/
def insert (retention_days : Nat) (now : Int) (db : List Record)
    (session_id text : String) : List Record :=
  purge_old retention_days now (db ++ [{ session_id := session_id, created_at := now, text := text }])

/-- `fetch_last(session_id, limit)`: rows of the session ordered by
`created_at DESC`, at most `limit` of them. -/
def fetch_last (db : List Record) (session_id : String) (limit : Nat) : List Record :=
  ((db.filter (fun r => r.session_id = session_id)).mergeSort
    (fun a b => decide (a.created_at ≥ b.created_at))).take limit

/-- `get_logs(session_id)`: the formatted texts of `fetch_last(session_id, 1000)`. -/
def get_logs (db : List Record) (session_id : String) : List String :=
  (fetch_last db session_id 1000).map (·.text)

end Memory

namespace Stt

/-- `is_audio_valid` from `app/services/stt_service.py`, as a function of the
decoded payload size in bytes (the base64 decode itself either succeeds,
giving this size, or throws, which the Python code turns into `False` before
these checks run). -/
def is_audio_valid (decoded_len : Nat) : Bool :=
  if decoded_len < 100 then false
  else if decoded_len > 10 * 1024 * 1024 then false
  else true

end Stt

namespace Chat

open Guardrails GeminiService EmotionService

/-- A session profile stored in `_sessions` by `/v1/setup`. -/
structure SessionCtx where
  kid_name : String
  age : Nat
  buddy_name : String

/-- `PARENT_PIN = "1234"`. -/
def PARENT_PIN : String := "1234"

/-- An HTTP error response: status code and detail message. -/
structure HttpError where
  code : Nat
  detail : String
  deriving DecidableEq, Repr

/-- Trace of one `/v1/chat` call on the text path (`req.audio` empty,
`req.message` non-empty after strip), recording the exact texts each pipeline
stage operated on. -/
structure ChatTrace where
  response : Except HttpError (String × String)
  st : Guardrails.BudgetState
  emotionUserText : Option String
  chargedText : Option String
  sanitizedText : Option String
  promptText : Option String
  loggedText : Option String

/-- The `/v1/chat` handler on the text path.  The control flow of
`app/api/v1/chat.py:chat` is: validate the session, pick the raw
`req.message` as `user_message`, run `detect_kid_emotion(user_message)`,
call `get_reply(session_id, user_message, …)` (which internally charges the
budget on `user_text` and only then sanitizes it for the prompt), classify
the reply with `detect_emotion(text_reply)`, synthesize audio (ignored
here), and append `f"Q: {user_message}\nA: {text_reply}"` to the log. -/
def chat_text_turn (maxTokens : Nat) (now : ℚ) (st : Guardrails.BudgetState)
    (session : Option SessionCtx) (session_id message : String)
    (sentiment : String → Except String ℚ) (sysPrompt : String)
    (gen : String → Except String String) (pick : Nat) : ChatTrace :=
  match session with
  | none =>
    { response := .error ⟨404, "Session not found. Please setup again."⟩, st := st,
      emotionUserText := none, chargedText := none, sanitizedText := none,
      promptText := none, loggedText := none }
  | some ctx =>
    if pyStrip message = "" then
      { response := .error ⟨400, "Please provide either text or audio input"⟩, st := st,
        emotionUserText := none, chargedText := none, sanitizedText := none,
        promptText := none, loggedText := none }
    else
      let user_message := message
      let kid_emotion := detect_kid_emotion sentiment user_message
      let r := get_reply maxTokens now st session_id user_message ctx.buddy_name
                 kid_emotion sysPrompt gen pick
      let emotion_tag := detect_emotion sentiment r.reply
      { response := .ok (r.reply, emotion_tag), st := r.st,
        emotionUserText := some user_message, chargedText := some r.chargedText,
        sanitizedText := r.sanitizedText, promptText := r.promptText,
        loggedText := some ("Q: " ++ user_message ++ "\nA: " ++ r.reply) }

/-- The `/v1/export-logs` handler.  Session validation and the PIN check run
outside the `try` block; inside it, an empty log list raises a 404
`HTTPException`, but the `except Exception` clause catches that very
exception (FastAPI's `HTTPException` subclasses `Exception`) and replaces it
with a generic 500. -/
def export_logs (session : Option SessionCtx) (pin : String) (logs : List String) :
    Except HttpError (List String × Nat) :=
  match session with
  | none => .error ⟨404, "Session not found. Please setup again."⟩
  | some _ =>
    if pin ≠ PARENT_PIN then .error ⟨401, "Invalid PIN. Access denied."⟩
    else
      let tryBody : Except HttpError (List String × Nat) :=
        if logs.isEmpty then .error ⟨404, "No logs found for this session"⟩
        else .ok (logs, logs.length)
      match tryBody with
      | .ok r => .ok r
      | .error _ => .error ⟨500, "Failed to export logs"⟩

/-- The audio-validation step of the `/v1/chat` handler: when
`is_audio_valid` fails, the handler raises a 400 before `transcribe_audio`
(the speech-recognition collaborator) is ever invoked; otherwise the
collaborator is called and a `None` transcription becomes another 400. -/
def chat_audio_step (decoded_len : Nat) (transcriber : Unit → Option String) :
    Except HttpError String :=
  if !Stt.is_audio_valid decoded_len then .error ⟨400, "Invalid audio data"⟩
  else
    match transcriber () with
    | some t => .ok t
    | none => .error ⟨400, "Could not understand audio. Please try speaking clearly!"⟩

end Chat

/-! # Claim theorems -/

section Helpers

open Guardrails

/-- Evaluation of `within_daily_budget` when the window has not expired and
the charge fits (shared helper). -/
theorem within_daily_budget_allowed (maxTokens : Nat) (now : ℚ) (st : BudgetState)
    (sid text : String) (hwin : ¬ (now - st.resetTs > 86400))
    (hle : st.bucket sid + countTokens text ≤ maxTokens) :
    within_daily_budget maxTokens now st sid text =
      (true, ⟨Function.update st.bucket sid (st.bucket sid + countTokens text), st.resetTs⟩) := by
  have hres : maybe_reset now st = st := by rw [maybe_reset, if_neg hwin]
  rw [within_daily_budget, hres, if_neg (by omega)]

end Helpers

section C7

open EmotionService

/-- C7: for every sentiment score returned by the collaborator, a score of
exactly +0.25 (or greater) maps to the positive bucket, a score of exactly
−0.25 (or less) maps to the negative bucket, and any score strictly between
maps to the neutral bucket, identically in `detect_emotion` (reply
classifier) and `detect_kid_emotion` (user-input classifier). -/
theorem C7_emotion_thresholds :
    (∀ (text : String) (s : ℚ), POS_THRESH ≤ s →
      detect_emotion (fun _ => .ok s) text = SENTIMENT_TO_EMOTION "positive" ∧
      detect_kid_emotion (fun _ => .ok s) text = "happy") ∧
    (∀ (text : String) (s : ℚ), s ≤ NEG_THRESH →
      detect_emotion (fun _ => .ok s) text = SENTIMENT_TO_EMOTION "negative" ∧
      detect_kid_emotion (fun _ => .ok s) text = "sad") ∧
    (∀ (text : String) (s : ℚ), NEG_THRESH < s → s < POS_THRESH →
      detect_emotion (fun _ => .ok s) text = SENTIMENT_TO_EMOTION "neutral" ∧
      detect_kid_emotion (fun _ => .ok s) text = "neutral") := by
  refine ⟨fun text s h => ?_, fun text s h => ?_, fun text s h1 h2 => ?_⟩
  · simp only [detect_emotion, detect_kid_emotion]
    rw [if_pos (show s ≥ POS_THRESH from h), if_pos (show s ≥ POS_THRESH from h)]
    exact ⟨rfl, rfl⟩
  · have hn : ¬ (s ≥ POS_THRESH) := by
      rw [ge_iff_le, POS_THRESH]; rw [NEG_THRESH] at h; intro hc; linarith
    simp only [detect_emotion, detect_kid_emotion]
    rw [if_neg hn, if_pos h, if_neg hn, if_pos h]
    exact ⟨rfl, rfl⟩
  · have hp : ¬ (s ≥ POS_THRESH) := fun hc => absurd h2 (not_lt.mpr hc)
    have hn : ¬ (s ≤ NEG_THRESH) := fun hc => absurd h1 (not_lt.mpr hc)
    simp only [detect_emotion, detect_kid_emotion]
    rw [if_neg hp, if_neg hn, if_neg hp, if_neg hn]
    exact ⟨rfl, rfl⟩

/-- Witness for C7 at the concrete scores +0.25, −0.25 and 0. -/
theorem C7_emotion_thresholds_witness :
    detect_emotion (fun _ => .ok (1/4 : ℚ)) "t" = SENTIMENT_TO_EMOTION "positive" ∧
    detect_kid_emotion (fun _ => .ok (1/4 : ℚ)) "t" = "happy" ∧
    detect_emotion (fun _ => .ok (-(1/4) : ℚ)) "t" = SENTIMENT_TO_EMOTION "negative" ∧
    detect_kid_emotion (fun _ => .ok (-(1/4) : ℚ)) "t" = "sad" ∧
    detect_emotion (fun _ => .ok (0 : ℚ)) "t" = SENTIMENT_TO_EMOTION "neutral" ∧
    detect_kid_emotion (fun _ => .ok (0 : ℚ)) "t" = "neutral" := by
  obtain ⟨hp, hn, hz⟩ := C7_emotion_thresholds
  have h1 := hp "t" (1/4) (by rw [POS_THRESH])
  have h2 := hn "t" (-(1/4)) (by rw [NEG_THRESH])
  have h3 := hz "t" 0 (by rw [NEG_THRESH]; norm_num) (by rw [POS_THRESH]; norm_num)
  exact ⟨h1.1, h1.2, h2.1, h2.2, h3.1, h3.2⟩

end C7

section C8

/-- C8: any decoded audio payload outside the inclusive range
[100 bytes, 10 MiB] fails validation, and the `/v1/chat` handler then
answers with the 400 validation error without the speech-recognition
collaborator being consulted (the outcome is the same for every possible
transcriber); payloads of exactly 100 bytes or exactly 10 MiB pass. -/
theorem C8_audio_size_validation :
    (∀ n : Nat, n < 100 ∨ 10 * 1024 * 1024 < n →
      Stt.is_audio_valid n = false ∧
      ∀ tr : Unit → Option String,
        Chat.chat_audio_step n tr = .error ⟨400, "Invalid audio data"⟩) ∧
    Stt.is_audio_valid 100 = true ∧
    Stt.is_audio_valid (10 * 1024 * 1024) = true := by
  refine ⟨fun n h => ?_, by decide, by decide⟩
  have hv : Stt.is_audio_valid n = false := by
    rw [Stt.is_audio_valid]
    rcases h with h | h
    · rw [if_pos h]
    · rw [if_neg (by omega), if_pos h]
  exact ⟨hv, fun tr => by rw [Chat.chat_audio_step, hv]; rfl⟩

/-- Witness for C8 at the 50-byte payload from the spec scenario. -/
theorem C8_audio_size_validation_witness :
    Stt.is_audio_valid 50 = false ∧
    Chat.chat_audio_step 50 (fun _ => some "hello") = .error ⟨400, "Invalid audio data"⟩ := by
  have h := C8_audio_size_validation.1 50 (Or.inl (by norm_num))
  exact ⟨h.1, h.2 _⟩

end C8

section C10

/-- C10: for an existing session and the correct PIN, a session with zero
stored conversation records makes `export_logs` answer the generic 500
"Failed to export logs" (the 404 raised inside the `try` block is swallowed
by the catch-all), never a distinct not-found result. -/
theorem C10_export_logs_empty_is_500 (ctx : Chat.SessionCtx) (pin : String)
    (db : List Memory.Record) (sid : String)
    (hpin : pin = Chat.PARENT_PIN)
    (hempty : ∀ r ∈ db, r.session_id ≠ sid) :
    Chat.export_logs (some ctx) pin (Memory.get_logs db sid) =
      .error ⟨500, "Failed to export logs"⟩ ∧
    ∀ d, Chat.export_logs (some ctx) pin (Memory.get_logs db sid) ≠ .error ⟨404, d⟩ := by
  have hlogs : Memory.get_logs db sid = [] := by
    rw [Memory.get_logs, Memory.fetch_last]
    have hfilter : db.filter (fun r => r.session_id = sid) = [] := by
      rw [List.filter_eq_nil_iff]
      intro r hr
      simpa using hempty r hr
    rw [hfilter]
    simp [List.mergeSort_nil]
  rw [hlogs, Chat.export_logs]
  rw [if_neg (by rw [hpin]; simp)]
  exact ⟨rfl, fun d h => by simp at h⟩

/-- Witness for C10 on a concrete empty database. -/
theorem C10_export_logs_empty_is_500_witness :
    Chat.export_logs (some ⟨"Mia", 7, "Sparkle"⟩) "1234" (Memory.get_logs [] "s") =
      .error ⟨500, "Failed to export logs"⟩ := by
  exact (C10_export_logs_empty_is_500 ⟨"Mia", 7, "Sparkle"⟩ "1234" [] "s" rfl
    (by intro r hr; simp at hr)).1

end C10

section C3

open Guardrails

/-- C3: within one budget window, a charge whose post-charge total would
exceed the configured daily maximum is denied and the session's counter is
reset to zero (not capped), so the next charge in the window starts from 0;
otherwise the charge is allowed and the counter grows by exactly the word
count of the text. -/
theorem C3_budget_deny_resets_counter (maxTokens : Nat) (now : ℚ) (st : BudgetState)
    (sid text : String) (hwin : ¬ (now - st.resetTs > 86400)) :
    (st.bucket sid + countTokens text > maxTokens →
      (within_daily_budget maxTokens now st sid text).1 = false ∧
      (within_daily_budget maxTokens now st sid text).2.bucket sid = 0) ∧
    (st.bucket sid + countTokens text ≤ maxTokens →
      (within_daily_budget maxTokens now st sid text).1 = true ∧
      (within_daily_budget maxTokens now st sid text).2.bucket sid =
        st.bucket sid + countTokens text) := by
  have hres : maybe_reset now st = st := by rw [maybe_reset, if_neg hwin]
  constructor
  · intro h
    rw [within_daily_budget, hres, if_pos h]
    exact ⟨rfl, by simp [Function.update_same]⟩
  · intro h
    rw [within_daily_budget, hres, if_neg (by omega)]
    exact ⟨rfl, by simp [Function.update_same]⟩

/-- Witness for C3: a fresh session charged 3 words against a maximum of 2 is
denied with its counter left at 0; against a maximum of 5 it is allowed and
the counter becomes 3. -/
theorem C3_budget_deny_resets_counter_witness :
    ((within_daily_budget 2 0 ⟨fun _ => 0, 0⟩ "s" "a b c").1 = false ∧
     (within_daily_budget 2 0 ⟨fun _ => 0, 0⟩ "s" "a b c").2.bucket "s" = 0) ∧
    ((within_daily_budget 5 0 ⟨fun _ => 0, 0⟩ "s" "a b c").1 = true ∧
     (within_daily_budget 5 0 ⟨fun _ => 0, 0⟩ "s" "a b c").2.bucket "s" = 0 + countTokens "a b c") := by
  constructor
  · exact (C3_budget_deny_resets_counter 2 0 ⟨fun _ => 0, 0⟩ "s" "a b c"
      (by norm_num)).1 (by decide)
  · exact (C3_budget_deny_resets_counter 5 0 ⟨fun _ => 0, 0⟩ "s" "a b c"
      (by norm_num)).2 (by decide)

end C3

section C9

open Guardrails

/-- Counterexample to C9 as stated: at an elapsed time of exactly 24 hours
(86 400 s), which satisfies the claim's "greater than or equal to 24 hours",
the code does NOT clear other sessions' counters (`_maybe_reset` uses a
strict `>`): another session's counter stays at 5 instead of being cleared. -/
theorem C9_counterexample :
    ((86400 : ℚ) - (0 : ℚ) ≥ 86400) ∧
    (within_daily_budget 4096 86400
        ⟨Function.update (fun _ => 0) "other" 5, 0⟩ "s" "hi").2.bucket "other" ≠ 0 ∧
    (within_daily_budget 4096 86400
        ⟨Function.update (fun _ => 0) "other" 5, 0⟩ "s" "hi").2.bucket "other" = 5 := by
  have hwin : ¬ ((86400 : ℚ) - (0 : ℚ) > 86400) := by norm_num
  have hle : (Function.update (fun _ : String => (0 : Nat)) "other" 5) "s" + countTokens "hi" ≤ 4096 := by
    rw [Function.update_noteq (by decide)]
    decide
  have heval := within_daily_budget_allowed 4096 86400
    ⟨Function.update (fun _ => 0) "other" 5, 0⟩ "s" "hi" hwin hle
  have hval : (within_daily_budget 4096 86400
      ⟨Function.update (fun _ => 0) "other" 5, 0⟩ "s" "hi").2.bucket "other" = 5 := by
    rw [heval]
    simp [Function.update]
  exact ⟨by norm_num, by rw [hval]; decide, hval⟩

/-- C9 (amended): the reset happens when STRICTLY more than 24 hours have
elapsed since the last window reset — then all sessions' counters are
cleared and the window restarts at the current time before the charge is
applied (so the charged session's counter reflects only the new text); when
at most 24 hours have elapsed, no counter other than the charged session's is
modified and the window start is unchanged. -/
theorem C9_window_reset (maxTokens : Nat) (now : ℚ) (st : BudgetState) (sid text : String) :
    (now - st.resetTs > 86400 →
      (within_daily_budget maxTokens now st sid text).2.resetTs = now ∧
      (∀ sid', sid' ≠ sid →
        (within_daily_budget maxTokens now st sid text).2.bucket sid' = 0) ∧
      (within_daily_budget maxTokens now st sid text).2.bucket sid =
        (if countTokens text > maxTokens then 0 else countTokens text)) ∧
    (¬ (now - st.resetTs > 86400) →
      (within_daily_budget maxTokens now st sid text).2.resetTs = st.resetTs ∧
      ∀ sid', sid' ≠ sid →
        (within_daily_budget maxTokens now st sid text).2.bucket sid' = st.bucket sid') := by
  constructor
  · intro h
    have hres : maybe_reset now st = ⟨fun _ => 0, now⟩ := by rw [maybe_reset, if_pos h]
    rw [within_daily_budget, hres]
    by_cases hc : (0 : Nat) + countTokens text > maxTokens
    · rw [if_pos hc]
      refine ⟨rfl, fun sid' hne => Function.update_noteq hne _ _, ?_⟩
      rw [if_pos (by omega)]
      simp [Function.update_same]
    · rw [if_neg hc]
      refine ⟨rfl, fun sid' hne => Function.update_noteq hne _ _, ?_⟩
      rw [if_neg (by omega)]
      simp [Function.update_same]
  · intro h
    have hres : maybe_reset now st = st := by rw [maybe_reset, if_neg h]
    rw [within_daily_budget, hres]
    by_cases hc : st.bucket sid + countTokens text > maxTokens
    · rw [if_pos hc]
      exact ⟨rfl, fun sid' hne => Function.update_noteq hne _ _⟩
    · rw [if_neg hc]
      exact ⟨rfl, fun sid' hne => Function.update_noteq hne _ _⟩

/-- Witness for C9 (amended): one second past the 24-hour mark the other
session's counter is cleared and the window restarts; at exactly the 24-hour
mark nothing but the charged session's counter changes. -/
theorem C9_window_reset_witness :
    ((within_daily_budget 4096 86401 ⟨Function.update (fun _ => 0) "other" 5, 0⟩ "s" "hi").2.resetTs = 86401 ∧
     (within_daily_budget 4096 86401 ⟨Function.update (fun _ => 0) "other" 5, 0⟩ "s" "hi").2.bucket "other" = 0) ∧
    ((within_daily_budget 4096 86400 ⟨Function.update (fun _ => 0) "other" 5, 0⟩ "s" "hi").2.resetTs = 0 ∧
     (within_daily_budget 4096 86400 ⟨Function.update (fun _ => 0) "other" 5, 0⟩ "s" "hi").2.bucket "other" =
       Function.update (fun _ => 0) "other" 5 "other") := by
  constructor
  · have h := (C9_window_reset 4096 86401 ⟨Function.update (fun _ => 0) "other" 5, 0⟩ "s" "hi").1
      (by norm_num)
    exact ⟨h.1, h.2.1 "other" (by decide)⟩
  · have h := (C9_window_reset 4096 86400 ⟨Function.update (fun _ => 0) "other" 5, 0⟩ "s" "hi").2
      (by norm_num)
    exact ⟨h.1, h.2 "other" (by decide)⟩

end C9

section C4

/-- C4: after any `insert` (append), every surviving record — across all
sessions, not only the inserted one — is within the retention window at the
time of the append, so no `fetch_last` read can return a record whose age
exceeds the retention window. -/
theorem C4_retention_after_insert (days : Nat) (now : Int) (db : List Memory.Record)
    (sid text : String) :
    (∀ r ∈ Memory.insert days now db sid text,
      now - r.created_at ≤ Memory.RETENTION_SECS days) ∧
    (∀ (sid' : String) (limit : Nat) (r : Memory.Record),
      r ∈ Memory.fetch_last (Memory.insert days now db sid text) sid' limit →
      now - r.created_at ≤ Memory.RETENTION_SECS days) := by
  have hall : ∀ r ∈ Memory.insert days now db sid text,
      now - r.created_at ≤ Memory.RETENTION_SECS days := by
    intro r hr
    rw [Memory.insert, Memory.purge_old] at hr
    have := (List.mem_filter.mp hr).2
    simp only [Bool.not_eq_true', decide_eq_false_iff_not, not_lt] at this
    omega
  refine ⟨hall, fun sid' limit r hr => ?_⟩
  apply hall
  rw [Memory.fetch_last] at hr
  have hr2 := List.take_subset _ _ hr
  rw [List.mem_mergeSort] at hr2
  exact (List.mem_filter.mp hr2).1

/-- Witness for C4: inserting into an empty log and reading it back returns
the fresh record, which is within the window. -/
theorem C4_retention_after_insert_witness :
    ((⟨"s", 1000, "hi"⟩ : Memory.Record) ∈
      Memory.fetch_last (Memory.insert 3 1000 [] "s" "hi") "s" 100) ∧
    (1000 : Int) - 1000 ≤ Memory.RETENTION_SECS 3 := by
  have hins : Memory.insert 3 1000 [] "s" "hi" = [⟨"s", 1000, "hi"⟩] := by decide
  have hmem : (⟨"s", 1000, "hi"⟩ : Memory.Record) ∈
      Memory.fetch_last (Memory.insert 3 1000 [] "s" "hi") "s" 100 := by
    rw [hins, Memory.fetch_last]
    have hf : ([⟨"s", 1000, "hi"⟩] : List Memory.Record).filter
        (fun r => r.session_id = "s") = [⟨"s", 1000, "hi"⟩] := by decide
    rw [hf, List.mergeSort_singleton]
    simp
  exact ⟨hmem, (C4_retention_after_insert 3 1000 [] "s" "hi").2 "s" 100 ⟨"s", 1000, "hi"⟩ hmem⟩

end C4

section C6

open Guardrails GeminiService

/-- Counterexample to C6 as stated: the third line of the fallback set,
"That's awesome! What else do you want to talk about?", does not reference
the persona name (here "Buddy"), so not every fallback line references it. -/
theorem C6_counterexample :
    ¬ ("Buddy".data <:+: ((fallback_responses "Buddy").getD 2 "").data) := by
  decide

/-- C6 (amended): whenever the generation collaborator fails, `get_reply`
returns one pseudo-randomly chosen line of its fixed five-line fallback set;
three of those five lines (the first, second and fourth) reference the
persona name, and the remaining two are fixed child-safe sentences — the
child never sees a raw error. -/
theorem C6_fallback_on_failure (maxTokens : Nat) (now : ℚ) (st : Guardrails.BudgetState)
    (sid text buddy kid_emotion sysPrompt msg : String) (pick : Nat)
    (hallow : (within_daily_budget maxTokens now st sid text).1 = true) :
    (get_reply maxTokens now st sid text buddy kid_emotion sysPrompt
        (fun _ => .error msg) pick).reply ∈ fallback_responses buddy ∧
    (fallback_responses buddy).length = 5 ∧
    buddy.data <:+: ((fallback_responses buddy).getD 0 "").data ∧
    buddy.data <:+: ((fallback_responses buddy).getD 1 "").data ∧
    buddy.data <:+: ((fallback_responses buddy).getD 3 "").data := by
  refine ⟨?_, by simp [fallback_responses], ?_, ?_, ?_⟩
  · rw [get_reply]
    rcases heq : within_daily_budget maxTokens now st sid text with ⟨allowed, st'⟩
    rw [heq] at hallow
    simp only at hallow
    rw [hallow]
    simp only [Bool.not_true, Bool.false_eq_true, if_false]
    have hlt : pick % 5 < (fallback_responses buddy).length := by
      simp [fallback_responses]
      omega
    rw [List.getD_eq_getElem _ _ hlt]
    exact List.getElem_mem hlt
  · exact ⟨"Hey ".data, " here! That's really interesting! Tell me more about that!".data,
      by simp [fallback_responses, String.data_append]⟩
  · exact ⟨"Wow, that's cool! I'm ".data, " and I'd love to hear more!".data,
      by simp [fallback_responses, String.data_append]⟩
  · exact ⟨"I'm ".data, " and I think that's really neat! Want to tell me more?".data,
      by simp [fallback_responses, String.data_append]⟩

/-- Witness for C6 (amended) at a concrete failing collaborator. -/
theorem C6_fallback_on_failure_witness :
    (get_reply 4096 0 ⟨fun _ => 0, 0⟩ "s" "hello" "Sparkle" "neutral" "sys"
        (fun _ => .error "boom") 7).reply ∈ fallback_responses "Sparkle" := by
  refine (C6_fallback_on_failure 4096 0 ⟨fun _ => 0, 0⟩ "s" "hello" "Sparkle"
    "neutral" "sys" "boom" 7 ?_).1
  rw [within_daily_budget_allowed 4096 0 ⟨fun _ => 0, 0⟩ "s" "hello"
    (by norm_num) (by decide)]

end C6

section C2

open Guardrails

/-- Counterexample to C2 as stated: redacting
"Call 555-123-4567 and email a@b.com" produces exactly ONE redaction token,
not two — the dashed phone-shaped substring matches none of the four
patterns (`_PHONE_RE` only accepts ten consecutive digits or a
parenthesised area code, `_SSN_RE` needs a 3-2-4 digit grouping, and
`_ZIP_RE` needs a five-digit run), so `555-123-4567` is left in the clear. -/
theorem C2_counterexample :
    countRedacted (sanitize "Call 555-123-4567 and email a@b.com") = 1 ∧
    (1 : Nat) ≠ 2 := by
  exact ⟨by decide, by decide⟩

/-- C2 (amended): redacting "Call 555-123-4567 and email a@b.com" yields
exactly one redaction token — for the email-shaped substring — and every
other character of the input, including the phone-shaped substring
`555-123-4567`, is unchanged. -/
theorem C2_redaction_of_spec_input :
    sanitize "Call 555-123-4567 and email a@b.com" =
      "Call 555-123-4567 and email [redacted]" ∧
    countRedacted (sanitize "Call 555-123-4567 and email a@b.com") = 1 := by
  exact ⟨by decide, by decide⟩

end C2

section C5

open Guardrails

/-- Counterexample to C5 as stated: `redact` is NOT idempotent.  The first
pass turns "a@b.com12345" into "[redacted]12345" (the email match ends at
"m" so the ZIP rule sees no word boundary before "12345"), but in the
second pass the "]" of the token provides a fresh word boundary and the ZIP
rule fires on "12345". -/
theorem C5_counterexample :
    sanitize "a@b.com12345" = "[redacted]12345" ∧
    sanitize (sanitize "a@b.com12345") = "[redacted][redacted]" ∧
    sanitize (sanitize "a@b.com12345") ≠ sanitize "a@b.com12345" := by
  exact ⟨by decide, by decide, by decide⟩

/-- A non-zero run of digits cannot be consumed in a string with no digits. -/
theorem eatN_digit_none {l : List Char}
    (h : ∀ c ∈ l, isDigitChar c = false ∧ c ≠ '@') {n : Nat} (hn : n ≠ 0) :
    eatN isDigitChar n l = none := by
  cases n with
  | zero => exact absurd rfl hn
  | succ m =>
    cases l with
    | nil => rfl
    | cons c cs =>
      simp only [eatN, (h c (List.mem_cons_self c cs)).1]
      rfl

/-- `_SSN_RE` cannot match in a digit-free, `@`-free string. -/
theorem ssnMatch_none (prev : Option Char) (l : List Char)
    (h : ∀ c ∈ l, isDigitChar c = false ∧ c ≠ '@') : ssnMatch prev l = none := by
  simp only [ssnMatch, eatN_digit_none h (show (3 : Nat) ≠ 0 by norm_num),
    Option.none_bind, ite_self]

/-- The parenthesised `_PHONE_RE` alternative cannot match in a digit-free,
`@`-free string. -/
theorem phoneAlt2_none (l : List Char)
    (h : ∀ c ∈ l, isDigitChar c = false ∧ c ≠ '@') : phoneAlt2 l = none := by
  cases l with
  | nil => rfl
  | cons c cs =>
    by_cases hc : c = '('
    · have htail : ∀ c' ∈ cs, isDigitChar c' = false ∧ c' ≠ '@' :=
        fun c' hc' => h c' (List.mem_cons_of_mem _ hc')
      simp only [phoneAlt2, expectChar, if_pos hc, Option.some_bind,
        eatN_digit_none htail (show (3 : Nat) ≠ 0 by norm_num), Option.none_bind]
    · simp only [phoneAlt2, expectChar, if_neg hc, Option.none_bind]

/-- `_PHONE_RE` cannot match in a digit-free, `@`-free string. -/
theorem phoneMatch_none (prev : Option Char) (l : List Char)
    (h : ∀ c ∈ l, isDigitChar c = false ∧ c ≠ '@') : phoneMatch prev l = none := by
  have h1 : phoneAlt1 prev l = none := by
    simp only [phoneAlt1, eatN_digit_none h (show (10 : Nat) ≠ 0 by norm_num),
      Option.none_bind, ite_self]
  rw [phoneMatch, h1, phoneAlt2_none l h]

/-- `_ZIP_RE` cannot match in a digit-free, `@`-free string. -/
theorem zipMatch_none (prev : Option Char) (l : List Char)
    (h : ∀ c ∈ l, isDigitChar c = false ∧ c ≠ '@') : zipMatch prev l = none := by
  simp only [zipMatch, eatN_digit_none h (show (5 : Nat) ≠ 0 by norm_num),
    Option.none_bind, ite_self]

/-- `_EMAIL_RE` cannot match in a digit-free, `@`-free string. -/
theorem emailMatch_none (prev : Option Char) (l : List Char)
    (h : ∀ c ∈ l, isDigitChar c = false ∧ c ≠ '@') : emailMatch prev l = none := by
  rw [emailMatch]
  by_cases hloc : (l.takeWhile isLocalChar).isEmpty
  · rw [if_pos hloc]
  · rw [if_neg hloc]
    rcases hd : l.drop (l.takeWhile isLocalChar).length with _ | ⟨c, cs⟩
    · rfl
    · have hcmem : c ∈ l := by
        have : c ∈ l.drop (l.takeWhile isLocalChar).length := by
          rw [hd]; exact List.mem_cons_self c cs
        exact List.drop_subset _ l this
      simp only [expectChar, if_neg (h c hcmem).2, Option.none_bind]

/-- If the matcher can never fire on safe strings, one `sub` pass is the
identity on them. -/
theorem subAux_eq_self (m : Option Char → List Char → Option (List Char))
    (tok : List Char)
    (hm : ∀ (prev : Option Char) (l : List Char),
      (∀ c ∈ l, isDigitChar c = false ∧ c ≠ '@') → m prev l = none) :
    ∀ (fuel : Nat) (prev : Option Char) (l : List Char),
      (∀ c ∈ l, isDigitChar c = false ∧ c ≠ '@') → subAux m tok fuel prev l = l := by
  intro fuel
  induction fuel with
  | zero => intro prev l _; rfl
  | succ f ih =>
    intro prev l h
    cases l with
    | nil => rfl
    | cons c cs =>
      simp only [subAux, hm prev (c :: cs) h]
      rw [ih (some c) cs (fun c' hc' => h c' (List.mem_cons_of_mem _ hc'))]

/-- `sanitize` is the identity on strings containing no digit and no `@`. -/
theorem sanitize_eq_self (x : String)
    (h : ∀ c ∈ x.data, isDigitChar c = false ∧ c ≠ '@') : sanitize x = x := by
  rw [sanitize, sanitizeL, sub1, sub1, sub1, sub1]
  rw [subAux_eq_self ssnMatch TOKEN_PLACEHOLDER ssnMatch_none _ none x.data h]
  rw [subAux_eq_self phoneMatch TOKEN_PLACEHOLDER phoneMatch_none _ none x.data h]
  rw [subAux_eq_self zipMatch TOKEN_PLACEHOLDER zipMatch_none _ none x.data h]
  rw [subAux_eq_self emailMatch TOKEN_PLACEHOLDER emailMatch_none _ none x.data h]

/-- C5 (amended): `redact` is not idempotent on all strings — a replacement
can expose a fresh word boundary (the token's "]") that lets a digit rule
fire on a second pass, as in the counterexample; and because the patterns
are compiled without `re.ASCII`, non-ASCII Unicode digits can defeat
idempotence the same way.  It IS idempotent — indeed a no-op — on every
ASCII string containing no digit and no `@` character, the fragment on which
this embedding of the pattern classes is exact. -/
theorem C5_redact_idempotent_on_safe (x : String)
    (h : ∀ c ∈ x.data, c.toNat < 128 ∧ isDigitChar c = false ∧ c ≠ '@') :
    sanitize (sanitize x) = sanitize x := by
  have h' : ∀ c ∈ x.data, isDigitChar c = false ∧ c ≠ '@' :=
    fun c hc => ⟨(h c hc).2.1, (h c hc).2.2⟩
  rw [sanitize_eq_self x h']
  exact sanitize_eq_self x h'

/-- Witness for C5 (amended) on a concrete ASCII, digit-free, `@`-free
string. -/
theorem C5_redact_idempotent_on_safe_witness :
    (∀ c ∈ "hello friend".data,
      c.toNat < 128 ∧ Guardrails.isDigitChar c = false ∧ c ≠ '@') ∧
    sanitize (sanitize "hello friend") = sanitize "hello friend" :=
  ⟨by decide, C5_redact_idempotent_on_safe "hello friend" (by decide)⟩

end C5

section C1

open Guardrails GeminiService EmotionService Chat

/-- `get_reply` charges the budget on the raw `user_text` in every branch
(the call to `within_daily_budget` precedes `sanitize`). -/
theorem get_reply_chargedText (maxTokens : Nat) (now : ℚ) (st : BudgetState)
    (sid text buddy emo sys : String) (gen : String → Except String String) (pick : Nat) :
    (get_reply maxTokens now st sid text buddy emo sys gen pick).chargedText = text := by
  rw [get_reply]
  rcases heq : within_daily_budget maxTokens now st sid text with ⟨allowed, st'⟩
  cases allowed
  · simp
  · cases hg : gen (sys ++ emotion_context emo ++ "\n\nUser: " ++ sanitize text) <;> simp [hg]

/-- When the budget admits the charge, `get_reply` computes
`clean_text = sanitize user_text` and embeds exactly that into the single
generation prompt. -/
theorem get_reply_sanitized_of_allowed (maxTokens : Nat) (now : ℚ) (st : BudgetState)
    (sid text buddy emo sys : String) (gen : String → Except String String) (pick : Nat)
    (h : (within_daily_budget maxTokens now st sid text).1 = true) :
    (get_reply maxTokens now st sid text buddy emo sys gen pick).sanitizedText =
      some (sanitize text) ∧
    (get_reply maxTokens now st sid text buddy emo sys gen pick).promptText =
      some (sys ++ emotion_context emo ++ "\n\nUser: " ++ sanitize text) := by
  rw [get_reply]
  rcases heq : within_daily_budget maxTokens now st sid text with ⟨allowed, st'⟩
  rw [heq] at h
  simp only at h
  subst h
  cases hg : gen (sys ++ emotion_context emo ++ "\n\nUser: " ++ sanitize text) <;> simp [hg]

/-- On the text path of `/v1/chat`, the budget charge, the user-emotion
classification and the conversation-log append all receive the raw
`req.message` (shared helper). -/
theorem chat_text_turn_fields (maxTokens : Nat) (now : ℚ) (st : BudgetState)
    (ctx : SessionCtx) (sid message : String) (sentiment : String → Except String ℚ)
    (sys : String) (gen : String → Except String String) (pick : Nat)
    (hmsg : pyStrip message ≠ "") :
    (chat_text_turn maxTokens now st (some ctx) sid message sentiment sys gen pick).chargedText =
      some message ∧
    (chat_text_turn maxTokens now st (some ctx) sid message sentiment sys gen pick).emotionUserText =
      some message ∧
    ∃ rep, (chat_text_turn maxTokens now st (some ctx) sid message sentiment sys gen pick).loggedText =
      some ("Q: " ++ message ++ "\nA: " ++ rep) := by
  rw [chat_text_turn]
  simp only [if_neg hmsg]
  refine ⟨?_, ?_, ?_⟩
  · rw [get_reply_chargedText]
  · first
    | rfl
    | trivial
  · exact ⟨_, rfl⟩

/-- Counterexample to C1 as stated: for the message "a@b.com" the budget
charge and the user-emotion classification receive the raw text
"a@b.com", not its redaction "[redacted]", and the logged exchange embeds
the raw text after "Q: " — so none of the three operate on redacted text. -/
theorem C1_counterexample :
    (chat_text_turn 4096 0 ⟨fun _ => 0, 0⟩ (some ⟨"Mia", 7, "Sparkle"⟩) "sid" "a@b.com"
        (fun _ => .ok 0) "sys" (fun _ => .ok "Hi") 0).chargedText = some "a@b.com" ∧
    (chat_text_turn 4096 0 ⟨fun _ => 0, 0⟩ (some ⟨"Mia", 7, "Sparkle"⟩) "sid" "a@b.com"
        (fun _ => .ok 0) "sys" (fun _ => .ok "Hi") 0).emotionUserText = some "a@b.com" ∧
    (∃ rep, (chat_text_turn 4096 0 ⟨fun _ => 0, 0⟩ (some ⟨"Mia", 7, "Sparkle"⟩) "sid" "a@b.com"
        (fun _ => .ok 0) "sys" (fun _ => .ok "Hi") 0).loggedText =
        some ("Q: " ++ "a@b.com" ++ "\nA: " ++ rep)) ∧
    sanitize "a@b.com" = "[redacted]" ∧
    some "a@b.com" ≠ some (sanitize "a@b.com") := by
  have h := chat_text_turn_fields 4096 0 ⟨fun _ => 0, 0⟩ ⟨"Mia", 7, "Sparkle"⟩ "sid"
    "a@b.com" (fun _ => .ok 0) "sys" (fun _ => .ok "Hi") 0 (by decide)
  exact ⟨h.1, h.2.1, h.2.2, by decide, by decide⟩

/-- C1 (amended): per chat turn the order is session lookup →
user-emotion classification on the RAW text → budget charge on the RAW
text → redaction → generation prompt (which embeds the redacted text) →
reply classification → log append of the RAW text.  PII redaction is
applied only to the text handed to the generation collaborator; the budget
charge, the user-emotion classification and the conversation-log append all
operate on the unredacted user text. -/
theorem C1_redaction_only_in_prompt (maxTokens : Nat) (now : ℚ) (st : BudgetState)
    (ctx : SessionCtx) (sid message : String) (sentiment : String → Except String ℚ)
    (sys : String) (gen : String → Except String String) (pick : Nat)
    (hmsg : pyStrip message ≠ "") :
    (chat_text_turn maxTokens now st (some ctx) sid message sentiment sys gen pick).chargedText =
      some message ∧
    (chat_text_turn maxTokens now st (some ctx) sid message sentiment sys gen pick).emotionUserText =
      some message ∧
    (∃ rep, (chat_text_turn maxTokens now st (some ctx) sid message sentiment sys gen pick).loggedText =
      some ("Q: " ++ message ++ "\nA: " ++ rep)) ∧
    ((within_daily_budget maxTokens now st sid message).1 = true →
      (chat_text_turn maxTokens now st (some ctx) sid message sentiment sys gen pick).sanitizedText =
        some (sanitize message) ∧
      (chat_text_turn maxTokens now st (some ctx) sid message sentiment sys gen pick).promptText =
        some (sys ++ emotion_context (detect_kid_emotion sentiment message) ++
          "\n\nUser: " ++ sanitize message)) := by
  refine ⟨(chat_text_turn_fields _ _ _ _ _ _ _ _ _ _ hmsg).1,
          (chat_text_turn_fields _ _ _ _ _ _ _ _ _ _ hmsg).2.1,
          (chat_text_turn_fields _ _ _ _ _ _ _ _ _ _ hmsg).2.2, fun hallow => ?_⟩
  rw [chat_text_turn]
  simp only [if_neg hmsg]
  exact get_reply_sanitized_of_allowed _ _ _ _ _ _ _ _ _ _ hallow

/-- Witness for C1 (amended) on a concrete turn. -/
theorem C1_redaction_only_in_prompt_witness :
    (chat_text_turn 4096 0 ⟨fun _ => 0, 0⟩ (some ⟨"Mia", 7, "Sparkle"⟩) "sid" "hello there"
        (fun _ => .ok 0) "sys" (fun _ => .ok "Hi") 0).chargedText = some "hello there" ∧
    (chat_text_turn 4096 0 ⟨fun _ => 0, 0⟩ (some ⟨"Mia", 7, "Sparkle"⟩) "sid" "hello there"
        (fun _ => .ok 0) "sys" (fun _ => .ok "Hi") 0).emotionUserText = some "hello there" := by
  have h := C1_redaction_only_in_prompt 4096 0 ⟨fun _ => 0, 0⟩ ⟨"Mia", 7, "Sparkle"⟩ "sid"
    "hello there" (fun _ => .ok 0) "sys" (fun _ => .ok "Hi") 0 (by decide)
  exact ⟨h.1, h.2.1⟩

end C1
